import Mathlib

/-!
# Verification of the authenticated CRUD resource core

Shallow embedding of the API core of the repository: the auth handlers
(`loginHandler`, `registerHandler` in `apps/api/src/routes/auth/handlers.ts`),
the task CRUD handlers (`apps/api/src/routes/tasks/handlers.ts`), the
boundary validation schemas (`apps/api/src/lib/validation.ts`,
`apps/api/src/routes/auth/schemas.ts`) and the route wiring
(`routes/auth/index.ts`, `routes/tasks/index.ts`).

Modelling choices for external collaborators:
* The Postgres store (accessed through drizzle) is a pair of in-memory lists
  (`users`, `tasks`).  `insert ... returning` appends a row built from the
  column defaults (`defaultRandom` ids and `defaultNow` timestamps are passed
  in as explicit `newId` / `now` parameters).  `select ... where ... limit 1`
  is `List.find?`; `update/delete ... where ... returning` act on every row
  matching the where-clause, as SQL does.  `ORDER BY created_at DESC` is
  realised as a deterministic stable sort on the store order (Postgres fixes
  no order among rows with equal `created_at`; this embedding realises that
  freedom as store order).  `LIMIT n OFFSET m` with a negative argument is a
  store-level error (Postgres: "OFFSET must not be negative"), surfaced by the
  generic error handler as a 500, not a 400.
* bcrypt (`hashPassword` / `verifyPassword` in `apps/api/src/lib/auth.ts`) is
  modelled by a tagged injective encoding with the library contract
  `verifyPassword p (hashPassword p) = true` and `false` on mismatch.
* `@fastify/jwt` signing is modelled by a payload record: `jwt.sign` embeds
  the `userId`, verification projects it back out.
* The zod `emailSchema` (`z.string().email()`) delegates to a library regex;
  it is abstracted as a boolean parameter `emailOk`.
* Timestamps are naturals (milliseconds); JS numbers in query strings are
  `Int` (they may be zero or negative).
-/

namespace StarterApi

/-- Row of the `users` table (`packages/db/src/schema/users.ts`, referenced by
`sessions.ts` and `tasks.ts`): id, email, name, password_hash, created_at,
updated_at. -/
structure DbUser where
  id : String
  email : String
  name : String
  passwordHash : String
  createdAt : Nat
  updatedAt : Nat
deriving Repr, DecidableEq

/-- Row of the `tasks` table (`packages/db/src/schema/tasks.ts`): id, user_id,
title, nullable description, completed (default false), created_at,
updated_at (default now). -/
structure Task where
  id : String
  userId : String
  title : String
  description : Option String
  completed : Bool
  createdAt : Nat
  updatedAt : Nat
deriving Repr, DecidableEq

/-- The relational store: the two tables the handlers touch. -/
structure Db where
  users : List DbUser
  tasks : List Task
deriving Repr, DecidableEq

/-- Error body shape produced by the global error handler in
`apps/api/src/index.ts`: `\x7b error, message, statusCode \x7d`. -/
structure ApiErr where
  error : String
  message : String
  statusCode : Nat
deriving Repr, DecidableEq

/-- Model of `reply.notFound(msg)` from `@fastify/sensible`: a 404 error. -/
def notFound (msg : String) : ApiErr := ⟨"Not Found", msg, 404⟩

/-- Model of `reply.badRequest(msg)`: a 400 error. -/
def badRequest (msg : String) : ApiErr := ⟨"Bad Request", msg, 400⟩

/-- Model of `reply.unauthorized(msg)`: a 401 error. -/
def unauthorized (msg : String) : ApiErr := ⟨"Unauthorized", msg, 401⟩

/-- Model of `reply.conflict(msg)`: a 409 error. -/
def conflict (msg : String) : ApiErr := ⟨"Conflict", msg, 409⟩

/-- An unexpected store-level failure surfaced by the generic error handler
as a 500. -/
def internalError (msg : String) : ApiErr := ⟨"Error", msg, 500⟩

/-- Model of bcrypt `hashPassword` (`apps/api/src/lib/auth.ts`): an injective
one-way tag.  The salt nondeterminism is irrelevant to the claims; what the
handlers rely on is the round-trip contract, asserted by the repository's own
tests in `routes/auth/handlers.test.ts`. -/
def hashPassword (password : String) : String := "$2b$10$" ++ password

/-- Model of bcrypt `verifyPassword`: true iff the hash came from this
password. -/
def verifyPassword (password hash : String) : Bool := hash == hashPassword password

/-- Payload of a signed JWT: `jwt.sign(\x7b userId \x7d, ...)` in
`generateToken` (`apps/api/src/lib/auth.ts`). -/
structure TokenPayload where
  userId : String
deriving Repr, DecidableEq

/-- Model of `generateToken(request, userId)`: signs a payload carrying the user id,
expiring in 7 days. -/
def generateToken (userId : String) : TokenPayload := ⟨userId⟩

/-- Model of `getUserIdFromToken`: a verified token resolves to its payload's
`userId`; a missing or invalid token is a 401. -/
def getUserIdFromToken : Option TokenPayload → Except ApiErr String
  | some t => .ok t.userId
  | none => .error (unauthorized "Invalid or missing token")

/-- The user object the auth handlers put in responses: only id, email, name,
createdAt, updatedAt (the `User` model in `packages/types/src/models.ts`). -/
structure PublicUser where
  id : String
  email : String
  name : String
  createdAt : Nat
  updatedAt : Nat
deriving Repr, DecidableEq

/-- The projection both auth handlers apply to a `users` row when building a
response. -/
def toPublicUser (u : DbUser) : PublicUser := ⟨u.id, u.email, u.name, u.createdAt, u.updatedAt⟩

/-- Shape of `AuthAPI.LoginResponse` / `RegisterResponse`: user, token, expiresIn. -/
structure LoginResponse where
  user : PublicUser
  token : TokenPayload
  expiresIn : Nat
deriving Repr, DecidableEq

/-- Translation of `loginHandler` (`routes/auth/handlers.ts`): select user by email limit 1;
absent email and wrong password both answer
`reply.unauthorized("Invalid email or password")`; on success issue a token
and return the public user. -/
def loginHandler (db : Db) (email password : String) : Except ApiErr LoginResponse :=
  match db.users.find? (fun u => u.email == email) with
  | none => .error (unauthorized "Invalid email or password")
  | some user =>
    if verifyPassword password user.passwordHash then
      .ok ⟨toPublicUser user, generateToken user.id, 7 * 24 * 60 * 60⟩
    else
      .error (unauthorized "Invalid email or password")

/-- Translation of `registerHandler` (`routes/auth/handlers.ts`): conflict when the email
already exists, otherwise hash the password, insert the user (fresh id
`newId`, timestamps `now`) and return the public user with a token. -/
def registerHandler (db : Db) (email password nm newId : String) (now : Nat) :
    Except ApiErr LoginResponse × Db :=
  match db.users.find? (fun u => u.email == email) with
  | some _ => (.error (conflict "User with this email already exists"), db)
  | none =>
    let newUser : DbUser := ⟨newId, email, nm, hashPassword password, now, now⟩
    (.ok ⟨toPublicUser newUser, generateToken newUser.id, 7 * 24 * 60 * 60⟩,
      { db with users := db.users ++ [newUser] })

/-- Check of `passwordSchema` (`lib/validation.ts`): `z.string().min(8)`. -/
def passwordSchemaCheck (password : String) : Bool := 8 ≤ password.length

/-- Check of `loginBodySchema` (`routes/auth/schemas.ts`): email must satisfy the zod
email regex (abstracted as `emailOk`), password must pass `passwordSchema`. -/
def loginBodyValid (emailOk : String → Bool) (email password : String) : Bool :=
  emailOk email && passwordSchemaCheck password

/-- Check of `registerBodySchema`: additionally `name: z.string().min(1)`. -/
def registerBodyValid (emailOk : String → Bool) (email password nm : String) : Bool :=
  emailOk email && passwordSchemaCheck password && decide (1 ≤ nm.length)

/-- The 400 response fastify produces when zod body validation fails, before
the handler runs. -/
def validationError : ApiErr := badRequest "body validation failed"

/-- Route `POST /api/auth/login` as wired in `routes/auth/index.ts`: the zod schema
runs first; only a valid body reaches `loginHandler`. -/
def loginRoute (emailOk : String → Bool) (db : Db) (email password : String) :
    Except ApiErr LoginResponse :=
  if loginBodyValid emailOk email password then loginHandler db email password
  else .error validationError

/-- Route `POST /api/auth/register` as wired in `routes/auth/index.ts`. -/
def registerRoute (emailOk : String → Bool) (db : Db) (email password nm newId : String)
    (now : Nat) : Except ApiErr LoginResponse × Db :=
  if registerBodyValid emailOk email password nm then
    registerHandler db email password nm newId now
  else (.error validationError, db)

/-- Shape of `TasksAPI.ListTasksParams`: optional page, limit, completed query
parameters (JS numbers, so `Int`). -/
structure ListTasksParams where
  page : Option Int
  limit : Option Int
  completed : Option Bool
deriving Repr, DecidableEq

/-- Pagination block of `PaginatedResponse` (`packages/types/src/common.ts`). -/
structure Pagination where
  page : Int
  limit : Int
  total : Nat
  totalPages : Nat
deriving Repr, DecidableEq

/-- Shape of `TasksAPI.ListTasksResponse`: data plus pagination. -/
structure ListTasksResponse where
  data : List Task
  pagination : Pagination
deriving Repr, DecidableEq

/-- The where-clause built in `listTasksHandler`: always
`eq(tasks.userId, userId)`, and `eq(tasks.completed, completed)` when the
filter is present. -/
def taskMatches (userId : String) (completed : Option Bool) (t : Task) : Bool :=
  match completed with
  | some c => t.userId == userId && t.completed == c
  | none => t.userId == userId

/-- The sort relation of `orderBy(desc(tasks.createdAt))`: newest first.
No other column appears in the ORDER BY. -/
def createdDesc (a b : Task) : Prop := b.createdAt ≤ a.createdAt

instance : DecidableRel createdDesc := fun a b => Nat.decLe b.createdAt a.createdAt

instance : IsTotal Task createdDesc := ⟨fun a b => Nat.le_total b.createdAt a.createdAt⟩

instance : IsTrans Task createdDesc := ⟨fun _ _ _ hab hbc => Nat.le_trans hbc hab⟩

/-- The clause `ORDER BY created_at DESC` realised deterministically: a stable sort, so
rows with equal `created_at` keep their store order (Postgres guarantees no
particular order for such ties). -/
def orderByCreatedDesc (rows : List Task) : List Task := rows.insertionSort createdDesc

/-- The clause `LIMIT lim OFFSET off` of the store: Postgres rejects negative values
with an error (a 500 through the generic error handler); otherwise it is
drop-then-take. -/
def sqlLimitOffset (rows : List Task) (lim off : Int) : Except ApiErr (List Task) :=
  if off < 0 then .error (internalError "OFFSET must not be negative")
  else if lim < 0 then .error (internalError "LIMIT must not be negative")
  else .ok ((rows.drop off.toNat).take lim.toNat)

/-- Value of `Math.ceil(total / limit)` for a natural `total` and the request's
(positive, in every theorem below) `limit`. -/
def jsCeilDiv (total : Nat) (limit : Int) : Nat := (total + limit.toNat - 1) / limit.toNat

/-- Translation of `listTasksHandler` (`routes/tasks/handlers.ts`): defaults `page = 1`,
`limit = 20`; `offset = (page - 1) * limit`; select the page of tasks matching
the where-clause ordered newest-first; count the rows matching the same
where-clause; answer data plus pagination with
`totalPages = Math.ceil(total / limit)`.  No validation schema is attached to
this route in `routes/tasks/index.ts`, so the handler receives the raw query
values. -/
def listTasksHandler (db : Db) (userId : String) (q : ListTasksParams) :
    Except ApiErr ListTasksResponse :=
  let page := q.page.getD 1
  let limit := q.limit.getD 20
  let offset := (page - 1) * limit
  let matching := db.tasks.filter (taskMatches userId q.completed)
  match sqlLimitOffset (orderByCreatedDesc matching) limit offset with
  | .error e => .error e
  | .ok taskList =>
    let total := matching.length
    .ok ⟨taskList, ⟨page, limit, total, jsCeilDiv total limit⟩⟩

/-- Translation of `getTaskHandler`: select where `id = id AND user_id = userId` limit 1;
absent row (nonexistent or foreign-owned alike) answers
`reply.notFound("Task not found")`. -/
def getTaskHandler (db : Db) (userId id : String) : Except ApiErr Task :=
  match db.tasks.find? (fun t => t.id == id && t.userId == userId) with
  | none => .error (notFound "Task not found")
  | some t => .ok t

/-- Shape of `TasksAPI.CreateTaskRequest`: title, optional description. -/
structure CreateTaskRequest where
  title : String
  description : Option String
deriving Repr, DecidableEq

/-- The value `description || null` stores: empty (falsy) or absent
description becomes null, anything else passes through. -/
def coerceDescription : Option String → Option String
  | some d => if d = "" then none else some d
  | none => none

/-- Translation of `createTaskHandler` (`routes/tasks/handlers.ts`): no field validation;
insert `\x7b userId, title, description: description || null \x7d` with the
column defaults (`completed = false`, fresh id, now timestamps) and return
the inserted row. -/
def createTaskHandler (db : Db) (userId : String) (body : CreateTaskRequest)
    (newId : String) (now : Nat) : Except ApiErr Task × Db :=
  let task : Task := ⟨newId, userId, body.title, coerceDescription body.description,
    false, now, now⟩
  (.ok task, { db with tasks := db.tasks ++ [task] })

/-- Shape of `TasksAPI.UpdateTaskRequest`: each field optional (`none` = not supplied). -/
structure UpdateTaskRequest where
  title : Option String
  description : Option String
  completed : Option Bool
deriving Repr, DecidableEq

/-- The SET clause of `updateTaskHandler`: supplied fields overwrite, and
`updatedAt` is always set to now. -/
def applyUpdate (body : UpdateTaskRequest) (now : Nat) (t : Task) : Task :=
  { t with
    title := body.title.getD t.title
    description := match body.description with
      | some d => some d
      | none => t.description
    completed := body.completed.getD t.completed
    updatedAt := now }

/-- Translation of `updateTaskHandler`: a body with no field supplied answers
`reply.badRequest("At least one field must be provided")` before any store
access; otherwise update every row where `id = id AND user_id = userId` and
return the updated row, or `reply.notFound("Task not found")` when none
matched. -/
def updateTaskHandler (db : Db) (userId id : String) (body : UpdateTaskRequest)
    (now : Nat) : Except ApiErr Task × Db :=
  if body.title.isNone && body.description.isNone && body.completed.isNone then
    (.error (badRequest "At least one field must be provided"), db)
  else
    let pred := fun t : Task => t.id == id && t.userId == userId
    let db2 : Db := { db with
      tasks := db.tasks.map (fun t => if pred t then applyUpdate body now t else t) }
    match (db.tasks.filter pred).map (applyUpdate body now) with
    | [] => (.error (notFound "Task not found"), db2)
    | u :: _ => (.ok u, db2)

/-- Shape of `TasksAPI.DeleteTaskResponse`. -/
structure DeleteTaskResponse where
  success : Bool
deriving Repr, DecidableEq

/-- Translation of `deleteTaskHandler`: delete every row where `id = id AND user_id =
userId`, returning the removed rows; none removed answers
`reply.notFound("Task not found")`, otherwise `\x7b success: true \x7d`. -/
def deleteTaskHandler (db : Db) (userId id : String) :
    Except ApiErr DeleteTaskResponse × Db :=
  let pred := fun t : Task => t.id == id && t.userId == userId
  let db2 : Db := { db with tasks := db.tasks.filter (fun t => !(pred t)) }
  match db.tasks.filter pred with
  | [] => (.error (notFound "Task not found"), db2)
  | _ :: _ => (.ok ⟨true⟩, db2)

end StarterApi

namespace StarterApi

/-! ## Claim theorems -/

/-- C6: an update request supplying none of title, description, completed is
answered with the 400 "At least one field must be provided" error and the
store is returned unchanged (the `updatedAt` touch never happens because the
handler returns before building the SET clause). -/
theorem C6_empty_update_rejected_no_mutation (db : Db) (userId id : String)
    (body : UpdateTaskRequest) (now : Nat)
    (h1 : body.title = none) (h2 : body.description = none) (h3 : body.completed = none) :
    updateTaskHandler db userId id body now =
      (.error (badRequest "At least one field must be provided"), db) := by
  simp [updateTaskHandler, h1, h2, h3]

/-- Witness for C6 at a concrete store and empty body. -/
theorem C6_empty_update_rejected_no_mutation_witness :
    updateTaskHandler ⟨[], [⟨"t1", "A", "x", none, false, 1, 1⟩]⟩ "A" "t1" ⟨none, none, none⟩ 9 =
      (.error (badRequest "At least one field must be provided"),
       ⟨[], [⟨"t1", "A", "x", none, false, 1, 1⟩]⟩) :=
  C6_empty_update_rejected_no_mutation _ "A" "t1" _ 9 rfl rfl rfl

/-- C3: a login against a store with no user under the email and a login
against a store whose user's hash does not verify the supplied password
produce literally equal results, and that result is the single 401
"Invalid email or password" error. -/
theorem C3_login_errors_indistinguishable (db1 db2 : Db)
    (email1 password1 email2 password2 : String) (u : DbUser)
    (h1 : db1.users.find? (fun v => v.email == email1) = none)
    (h2 : db2.users.find? (fun v => v.email == email2) = some u)
    (h3 : verifyPassword password2 u.passwordHash = false) :
    loginHandler db1 email1 password1 = loginHandler db2 email2 password2 ∧
    loginHandler db1 email1 password1 = .error (unauthorized "Invalid email or password") ∧
    (unauthorized "Invalid email or password").statusCode = 401 := by
  refine ⟨?_, ?_, rfl⟩ <;> simp [loginHandler, h1, h2, h3]

/-- Store used to witness C3: one user whose password is "pw123456". -/
def dbC3 : Db := ⟨[⟨"u1", "a@x.com", "A", hashPassword "pw123456", 1, 1⟩], []⟩

/-- Witness for C3: unknown email on an empty store versus wrong password on
`dbC3`. -/
theorem C3_login_errors_indistinguishable_witness :
    loginHandler ⟨[], []⟩ "b@x.com" "whatever1" = loginHandler dbC3 "a@x.com" "wrongpw1" ∧
    loginHandler ⟨[], []⟩ "b@x.com" "whatever1" =
      .error (unauthorized "Invalid email or password") ∧
    (unauthorized "Invalid email or password").statusCode = 401 :=
  C3_login_errors_indistinguishable ⟨[], []⟩ dbC3 "b@x.com" "whatever1" "a@x.com" "wrongpw1"
    ⟨"u1", "a@x.com", "A", hashPassword "pw123456", 1, 1⟩ (by decide) (by decide) (by decide)

/-- C8: a successful login returns exactly the `toPublicUser` projection of
the stored row, a successful register returns exactly the projection of the
row it inserts, and that projection is invariant under the password hash —
the responses carry id, email, name, createdAt, updatedAt and nothing
derived from the hash. -/
theorem C8_responses_never_carry_password_hash (db : Db)
    (email password email2 password2 nm newId : String) (now : Nat) (u : DbUser)
    (hfind : db.users.find? (fun v => v.email == email) = some u)
    (hpw : verifyPassword password u.passwordHash = true)
    (hfresh : db.users.find? (fun v => v.email == email2) = none) :
    loginHandler db email password =
      .ok ⟨toPublicUser u, generateToken u.id, 7 * 24 * 60 * 60⟩ ∧
    (registerHandler db email2 password2 nm newId now).1 =
      .ok ⟨toPublicUser ⟨newId, email2, nm, hashPassword password2, now, now⟩,
        generateToken newId, 7 * 24 * 60 * 60⟩ ∧
    ∀ (v : DbUser) (h : String), toPublicUser { v with passwordHash := h } = toPublicUser v := by
  refine ⟨?_, ?_, fun v h => rfl⟩ <;> simp [loginHandler, registerHandler, hfind, hpw, hfresh]

/-- Witness for C8 on `dbC3`. -/
theorem C8_responses_never_carry_password_hash_witness :
    loginHandler dbC3 "a@x.com" "pw123456" =
      .ok ⟨toPublicUser ⟨"u1", "a@x.com", "A", hashPassword "pw123456", 1, 1⟩,
        generateToken "u1", 7 * 24 * 60 * 60⟩ ∧
    (registerHandler dbC3 "b@x.com" "pw654321" "B" "u2" 5).1 =
      .ok ⟨toPublicUser ⟨"u2", "b@x.com", "B", hashPassword "pw654321", 5, 5⟩,
        generateToken "u2", 7 * 24 * 60 * 60⟩ ∧
    ∀ (v : DbUser) (h : String), toPublicUser { v with passwordHash := h } = toPublicUser v :=
  C8_responses_never_carry_password_hash dbC3 "a@x.com" "pw123456" "b@x.com" "pw654321" "B" "u2" 5
    ⟨"u1", "a@x.com", "A", hashPassword "pw123456", 1, 1⟩ (by decide) (by decide) (by decide)

/-- C9: a password shorter than 8 characters is rejected by the zod boundary
schema of both auth routes with the 400 validation error, before either
handler runs: login does not produce its 401, and register leaves the user
store unchanged. -/
theorem C9_short_password_rejected_at_boundary (emailOk : String → Bool) (db : Db)
    (email password nm newId : String) (now : Nat) (hshort : password.length < 8) :
    loginRoute emailOk db email password = .error validationError ∧
    registerRoute emailOk db email password nm newId now = (.error validationError, db) ∧
    validationError.statusCode = 400 ∧
    loginRoute emailOk db email password ≠ .error (unauthorized "Invalid email or password") := by
  have hpc : passwordSchemaCheck password = false := by
    simp [passwordSchemaCheck]
    omega
  refine ⟨?_, ?_, rfl, ?_⟩ <;>
    simp [loginRoute, registerRoute, loginBodyValid, registerBodyValid, hpc,
      validationError, badRequest, unauthorized]

/-- Witness for C9: the 7-character password "short12". -/
theorem C9_short_password_rejected_at_boundary_witness :
    loginRoute (fun e => e == "a@x.com") dbC3 "a@x.com" "short12" = .error validationError ∧
    registerRoute (fun e => e == "a@x.com") dbC3 "a@x.com" "short12" "A" "u9" 3 =
      (.error validationError, dbC3) ∧
    validationError.statusCode = 400 ∧
    loginRoute (fun e => e == "a@x.com") dbC3 "a@x.com" "short12" ≠
      .error (unauthorized "Invalid email or password") :=
  C9_short_password_rejected_at_boundary (fun e => e == "a@x.com") dbC3 "a@x.com" "short12"
    "A" "u9" 3 (by decide)

/-- C10: create stores `description || null` — an empty-string description
(or an absent one) is stored as null, a non-empty description verbatim; the
inserted row is exactly what the response returns. -/
theorem C10_empty_description_stored_as_null (db : Db) (userId title newId d : String)
    (now : Nat) (hd : d ≠ "") :
    (createTaskHandler db userId ⟨title, some ""⟩ newId now).1 =
      .ok ⟨newId, userId, title, none, false, now, now⟩ ∧
    (createTaskHandler db userId ⟨title, some ""⟩ newId now).2.tasks =
      db.tasks ++ [⟨newId, userId, title, none, false, now, now⟩] ∧
    (createTaskHandler db userId ⟨title, none⟩ newId now).1 =
      .ok ⟨newId, userId, title, none, false, now, now⟩ ∧
    (createTaskHandler db userId ⟨title, some d⟩ newId now).1 =
      .ok ⟨newId, userId, title, some d, false, now, now⟩ := by
  refine ⟨?_, ?_, ?_, ?_⟩ <;> simp [createTaskHandler, coerceDescription, hd]

/-- Witness for C10 with description "notes". -/
theorem C10_empty_description_stored_as_null_witness :
    (createTaskHandler ⟨[], []⟩ "A" ⟨"x", some ""⟩ "t1" 4).1 =
      .ok ⟨"t1", "A", "x", none, false, 4, 4⟩ ∧
    (createTaskHandler ⟨[], []⟩ "A" ⟨"x", some ""⟩ "t1" 4).2.tasks =
      [] ++ [⟨"t1", "A", "x", none, false, 4, 4⟩] ∧
    (createTaskHandler ⟨[], []⟩ "A" ⟨"x", none⟩ "t1" 4).1 =
      .ok ⟨"t1", "A", "x", none, false, 4, 4⟩ ∧
    (createTaskHandler ⟨[], []⟩ "A" ⟨"x", some "notes"⟩ "t1" 4).1 =
      .ok ⟨"t1", "A", "x", some "notes", false, 4, 4⟩ :=
  C10_empty_description_stored_as_null ⟨[], []⟩ "A" "x" "t1" "notes" 4 (by decide)

end StarterApi

namespace StarterApi

/-- Mapping a conditional rewrite over a list whose elements all fail the
test is the identity. -/
theorem map_ite_of_all_false {α : Type} (p : α → Bool) (f : α → α) (l : List α)
    (h : ∀ a ∈ l, p a = false) :
    l.map (fun a => if p a then f a else a) = l := by
  induction l with
  | nil => rfl
  | cons x xs ih =>
    have hx := h x (by simp)
    simp only [List.map_cons, hx, if_false, Bool.false_eq_true]
    exact congrArg (x :: ·) (ih fun a ha => h a (by simp [ha]))

/-- C1: for distinct users A and B and a task of A, `get`, `update` and
`delete` issued as B all answer the 404 "Task not found" error, and neither
`update` nor `delete` changes the store — the where-clause of each operation
conjoins the task id with the requester's id.  (`hUnique` reflects that `id`
is the primary key: every row carrying this id belongs to A.  The update body
supplies at least one field, so the request passes the handler's own
zero-field check and the outcome is decided by ownership alone.) -/
theorem C1_non_owner_gets_not_found (db : Db) (A B tid : String) (hAB : A ≠ B)
    (hOwned : ∃ t ∈ db.tasks, t.id = tid ∧ t.userId = A)
    (hUnique : ∀ t ∈ db.tasks, t.id = tid → t.userId = A)
    (body : UpdateTaskRequest)
    (hbody : (body.title.isNone && body.description.isNone && body.completed.isNone) = false)
    (now : Nat) :
    getTaskHandler db B tid = .error (notFound "Task not found") ∧
    updateTaskHandler db B tid body now = (.error (notFound "Task not found"), db) ∧
    deleteTaskHandler db B tid = (.error (notFound "Task not found"), db) := by
  have hpred : ∀ t ∈ db.tasks, (t.id == tid && t.userId == B) = false := by
    intro t ht
    by_cases hid : t.id = tid
    · have hA := hUnique t ht hid
      simp [hid, hA, hAB]
    · simp [hid]
  have hfind : db.tasks.find? (fun t => t.id == tid && t.userId == B) = none :=
    List.find?_eq_none.mpr (fun t ht => by simp [hpred t ht])
  have hfil : db.tasks.filter (fun t => t.id == tid && t.userId == B) = [] :=
    List.filter_eq_nil_iff.mpr (fun t ht => by simp [hpred t ht])
  have hkeep : db.tasks.filter (fun t => !(t.id == tid && t.userId == B)) = db.tasks :=
    List.filter_eq_self.mpr (fun t ht => by simp [hpred t ht])
  refine ⟨?_, ?_, ?_⟩
  · simp [getTaskHandler, hfind]
  · simp only [updateTaskHandler, hbody, Bool.false_eq_true, if_false, hfil, List.map_nil]
    exact congrArg (Prod.mk _) (congrArg (Db.mk db.users)
      (map_ite_of_all_false _ _ _ hpred))
  · simp only [deleteTaskHandler, hfil]
    exact congrArg (Prod.mk _) (congrArg (Db.mk db.users) hkeep)

/-- Store used to witness C1: one task of user A. -/
def dbC1 : Db := ⟨[], [⟨"t1", "A", "x", none, false, 1, 1⟩]⟩

/-- Witness for C1: user B probing A's task "t1". -/
theorem C1_non_owner_gets_not_found_witness :
    getTaskHandler dbC1 "B" "t1" = .error (notFound "Task not found") ∧
    updateTaskHandler dbC1 "B" "t1" ⟨some "y", none, none⟩ 9 =
      (.error (notFound "Task not found"), dbC1) ∧
    deleteTaskHandler dbC1 "B" "t1" = (.error (notFound "Task not found"), dbC1) :=
  C1_non_owner_gets_not_found dbC1 "A" "B" "t1" (by decide)
    ⟨⟨"t1", "A", "x", none, false, 1, 1⟩, by simp [dbC1]⟩
    (by decide) ⟨some "y", none, none⟩ (by decide) 9

/-- C2: with an email nobody holds and a body passing the boundary schema,
`register` succeeds, a `login` with the same credentials against the
resulting store succeeds, and both responses carry tokens whose payload is
the id of the newly created user. -/
theorem C2_register_then_login_same_subject (emailOk : String → Bool) (db : Db)
    (email password nm newId : String) (now : Nat)
    (hfresh : ∀ u ∈ db.users, ¬ u.email = email)
    (hemail : emailOk email = true) (hpw : 8 ≤ password.length) (hnm : 1 ≤ nm.length) :
    ∃ r1 r2 : LoginResponse,
      (registerRoute emailOk db email password nm newId now).1 = .ok r1 ∧
      loginRoute emailOk (registerRoute emailOk db email password nm newId now).2
        email password = .ok r2 ∧
      r1.token.userId = newId ∧ r2.token.userId = newId ∧
      r1.user.id = newId ∧ r2.user.id = newId := by
  have hvalid : registerBodyValid emailOk email password nm = true := by
    simp [registerBodyValid, passwordSchemaCheck, hemail, hpw, hnm]
  have hlvalid : loginBodyValid emailOk email password = true := by
    simp [loginBodyValid, passwordSchemaCheck, hemail, hpw]
  have hnone : db.users.find? (fun u => u.email == email) = none :=
    List.find?_eq_none.mpr (by simpa using hfresh)
  have hreg : registerRoute emailOk db email password nm newId now =
      (.ok ⟨toPublicUser ⟨newId, email, nm, hashPassword password, now, now⟩,
          generateToken newId, 7 * 24 * 60 * 60⟩,
        { db with users := db.users ++ [⟨newId, email, nm, hashPassword password, now, now⟩] }) := by
    simp [registerRoute, hvalid, registerHandler, hnone]
  have hfind2 : (db.users ++ [(⟨newId, email, nm, hashPassword password, now, now⟩ : DbUser)]).find?
      (fun u => u.email == email) = some ⟨newId, email, nm, hashPassword password, now, now⟩ := by
    rw [List.find?_append, hnone]
    simp
  have hlog : loginRoute emailOk (registerRoute emailOk db email password nm newId now).2
      email password =
      .ok ⟨toPublicUser ⟨newId, email, nm, hashPassword password, now, now⟩,
        generateToken newId, 7 * 24 * 60 * 60⟩ := by
    rw [hreg]
    simp only [loginRoute, hlvalid, if_true, loginHandler, hfind2]
    simp [verifyPassword]
  exact ⟨⟨toPublicUser ⟨newId, email, nm, hashPassword password, now, now⟩,
      generateToken newId, 7 * 24 * 60 * 60⟩,
    ⟨toPublicUser ⟨newId, email, nm, hashPassword password, now, now⟩,
      generateToken newId, 7 * 24 * 60 * 60⟩,
    by rw [hreg], hlog, rfl, rfl, rfl, rfl⟩

/-- Witness for C2: registering "c@x.com" on `dbC3` and logging back in. -/
theorem C2_register_then_login_same_subject_witness :
    ∃ r1 r2 : LoginResponse,
      (registerRoute (fun e => e == "c@x.com") dbC3 "c@x.com" "pw123456" "C" "u3" 8).1 =
        .ok r1 ∧
      loginRoute (fun e => e == "c@x.com")
        (registerRoute (fun e => e == "c@x.com") dbC3 "c@x.com" "pw123456" "C" "u3" 8).2
        "c@x.com" "pw123456" = .ok r2 ∧
      r1.token.userId = "u3" ∧ r2.token.userId = "u3" ∧
      r1.user.id = "u3" ∧ r2.user.id = "u3" :=
  C2_register_then_login_same_subject (fun e => e == "c@x.com") dbC3 "c@x.com" "pw123456"
    "C" "u3" 8 (by decide) (by decide) (by decide) (by decide)

end StarterApi

namespace StarterApi

/-- Store used for the C4 counterexample: two tasks of user A. -/
def dbC4 : Db :=
  ⟨[], [⟨"t1", "A", "x", none, false, 2, 2⟩, ⟨"t2", "A", "y", none, false, 1, 1⟩]⟩

/-- C4 counterexample: no validation schema is attached to the list route
(`routes/tasks/index.ts` registers `listTasksHandler` bare, and
`paginationSchema` of `lib/validation.ts` is never wired in), so a limit of
500 — far outside 1..100 — is answered with an ordinary 200 page echoing
`limit = 500`, and a page of 0 reaches the store as a negative offset and
surfaces as a 500-level store error: neither out-of-range input produces the
claimed 400 ValidationError. -/
theorem C4_counterexample_no_validation :
    listTasksHandler dbC4 "A" ⟨some 1, some 500, none⟩ =
      .ok ⟨[⟨"t1", "A", "x", none, false, 2, 2⟩, ⟨"t2", "A", "y", none, false, 1, 1⟩],
        ⟨1, 500, 2, 1⟩⟩ ∧
    listTasksHandler dbC4 "A" ⟨some 0, some 20, none⟩ =
      .error (internalError "OFFSET must not be negative") ∧
    (internalError "OFFSET must not be negative").statusCode = 500 :=
  ⟨by rfl, by rfl, rfl⟩

/-- C4 amended: the list route performs no pagination validation.  Any limit
above 100 is used as supplied and answered with a 200 page carrying that
limit, and any page below 1 turns into a negative offset rejected by the
store (a 500, not a 400). -/
theorem C4_amended_out_of_range_passes_through (db : Db) (userId : String)
    (lim page : Int) (hlim : 100 < lim) (hpage : page ≤ 0) :
    (listTasksHandler db userId ⟨some 1, some lim, none⟩).toOption.map
        (fun r => (r.pagination.page, r.pagination.limit)) = some (1, lim) ∧
    listTasksHandler db userId ⟨some page, some 20, none⟩ =
      .error (internalError "OFFSET must not be negative") := by
  constructor
  · have h0 : ¬ ((1 : Int) - 1) * lim < 0 := by omega
    have h1 : ¬ lim < 0 := by omega
    unfold listTasksHandler sqlLimitOffset
    simp only [Option.getD_some]
    rw [if_neg h0, if_neg h1]
    rfl
  · have h0 : (page - 1) * 20 < 0 := by omega
    unfold listTasksHandler sqlLimitOffset
    simp only [Option.getD_some]
    rw [if_pos h0]

/-- Witness for the amended C4 at limit 500 and page 0 on `dbC4`. -/
theorem C4_amended_out_of_range_passes_through_witness :
    (listTasksHandler dbC4 "A" ⟨some 1, some 500, none⟩).toOption.map
        (fun r => (r.pagination.page, r.pagination.limit)) = some (1, 500) ∧
    listTasksHandler dbC4 "A" ⟨some 0, some 20, none⟩ =
      .error (internalError "OFFSET must not be negative") :=
  C4_amended_out_of_range_passes_through dbC4 "A" 500 0 (by decide) (by decide)

/-- C7 counterexample: `createTaskHandler` validates nothing — a create with
an empty title succeeds (an ordinary 200 with the inserted row) and the row
is inserted, instead of the claimed 400 ValidationError with no insertion. -/
theorem C7_counterexample_empty_title_inserted :
    createTaskHandler ⟨[], []⟩ "A" ⟨"", some "d"⟩ "t1" 7 =
      (.ok ⟨"t1", "A", "", some "d", false, 7, 7⟩,
        ⟨[], [⟨"t1", "A", "", some "d", false, 7, 7⟩]⟩) := by
  rfl

/-- C7 amended: create performs no title validation.  For every title,
including the empty string, the handler succeeds and inserts exactly one row
carrying the title verbatim; the optional description passes through except
that an empty or absent one is stored as null (`description || null`). -/
theorem C7_amended_create_unvalidated (db : Db) (userId title newId : String)
    (d : Option String) (now : Nat) :
    (createTaskHandler db userId ⟨title, d⟩ newId now).1 =
      .ok ⟨newId, userId, title, coerceDescription d, false, now, now⟩ ∧
    (createTaskHandler db userId ⟨title, d⟩ newId now).2.tasks =
      db.tasks ++ [⟨newId, userId, title, coerceDescription d, false, now, now⟩] :=
  ⟨rfl, rfl⟩

end StarterApi

namespace StarterApi

/-- The rows matching a list request, newest first — the value the store
hands to `LIMIT/OFFSET`. -/
def ownedSorted (db : Db) (userId : String) (completed : Option Bool) : List Task :=
  orderByCreatedDesc (db.tasks.filter (taskMatches userId completed))

/-- The data rows of a list response (empty for an error). -/
def listData (r : Except ApiErr ListTasksResponse) : List Task :=
  match r with
  | .ok resp => resp.data
  | .error _ => []

/-- A list request with natural page `p ≥ 1` and limit `P ≥ 1` succeeds and
returns the slice `[(p-1)·P, p·P)` of the sorted matching rows, the count of
all matching rows as `total`, and `totalPages = ceil(total / P)`. -/
theorem listTasks_page_eq (db : Db) (userId : String) (c : Option Bool) (p P : Nat)
    (hp : 1 ≤ p) (hP : 1 ≤ P) :
    listTasksHandler db userId ⟨some (p : Int), some (P : Int), c⟩ =
      .ok ⟨((ownedSorted db userId c).drop ((p - 1) * P)).take P,
        ⟨(p : Int), (P : Int), (db.tasks.filter (taskMatches userId c)).length,
          ((db.tasks.filter (taskMatches userId c)).length + P - 1) / P⟩⟩ := by
  have hoff : ((p : Int) - 1) * (P : Int) = (((p - 1) * P : Nat) : Int) := by
    push_cast [Nat.cast_sub hp]
    ring
  have h0 : ¬ ((p : Int) - 1) * (P : Int) < 0 := by
    rw [hoff]
    exact Int.not_lt.mpr (Int.natCast_nonneg _)
  have h1 : ¬ ((P : Int)) < 0 := Int.not_lt.mpr (Int.natCast_nonneg _)
  unfold listTasksHandler sqlLimitOffset jsCeilDiv ownedSorted
  simp only [Option.getD_some]
  rw [if_neg h0, if_neg h1]
  simp only [hoff, Int.toNat_natCast]

/-- Concatenating the `ceil(length / P)` consecutive `P`-slices of a list
gives the list back. -/
theorem flatten_chunks {α : Type} (P : Nat) (hP : 0 < P) :
    ∀ (k : Nat) (l : List α), (l.length + P - 1) / P = k →
      ((List.range k).map (fun i => (l.drop (i * P)).take P)).flatten = l := by
  intro k
  induction k with
  | zero =>
    intro l h
    have hlt : l.length + P - 1 < P := (Nat.div_eq_zero_iff hP).mp h
    have hlen : l.length = 0 := by omega
    rw [List.length_eq_zero.mp hlen]
    rfl
  | succ k ih =>
    intro l h
    have hrec : ((l.drop P).length + P - 1) / P = k := by
      rw [List.length_drop]
      rcases Nat.le_total l.length P with hle | hge
      · have hlen1 : 1 ≤ l.length := by
          by_contra hc
          have h00 : l.length = 0 := by omega
          rw [h00] at h
          have hz : (0 + P - 1) / P = 0 := Nat.div_eq_of_lt (by omega)
          omega
        have h00 : l.length - P = 0 := by omega
        rw [h00]
        have hz : (0 + P - 1) / P = 0 := Nat.div_eq_of_lt (by omega)
        have h1 : (l.length + P - 1) / P = 1 := by
          have e : l.length + P - 1 = (l.length - 1) + P := by omega
          rw [e, Nat.add_div_right _ hP, Nat.div_eq_of_lt (by omega)]
        omega
      · have e1 : l.length - P + P - 1 = l.length - 1 := by omega
        have e2 : l.length + P - 1 = (l.length - 1) + P := by omega
        rw [e2, Nat.add_div_right _ hP] at h
        rw [e1]
        omega
    rw [List.range_succ_eq_map]
    simp only [List.map_cons, List.flatten_cons, Nat.zero_mul, List.drop_zero, List.map_map]
    have hfun : ((List.range k).map ((fun i => (l.drop (i * P)).take P) ∘ Nat.succ)) =
        (List.range k).map (fun i => ((l.drop P).drop (i * P)).take P) := by
      apply List.map_congr_left
      intro i _
      simp only [Function.comp_apply]
      rw [List.drop_drop]
      have e : Nat.succ i * P = P + i * P := by
        simp [Nat.succ_mul, Nat.add_comm]
      rw [e]
    rw [hfun, ih (l.drop P) hrec, List.take_append_drop]

/-- C5 amended (the id tie-break dropped): for every owner, filter and
natural `p ≥ 1`, `P ≥ 1`, the list operation returns exactly the slice
`[(p-1)·P, p·P)` of the matching rows sorted newest-first by creation time
(ties keep store order — the query orders by `created_at` alone); the
reported total is the count of all matching rows, independent of `p` and
`P`; `totalPages = ceil(total / P)`; the sorted matching rows are a
permutation of the matching store rows and duplicate-free (given unique
ids); and the concatenation of pages `1..totalPages` is exactly the full
sorted matching set. -/
theorem C5_amended_pagination_correct (db : Db) (userId : String) (c : Option Bool)
    (p P : Nat) (hp : 1 ≤ p) (hP : 1 ≤ P)
    (hids : (db.tasks.map Task.id).Nodup) :
    listTasksHandler db userId ⟨some (p : Int), some (P : Int), c⟩ =
      .ok ⟨((ownedSorted db userId c).drop ((p - 1) * P)).take P,
        ⟨(p : Int), (P : Int), (db.tasks.filter (taskMatches userId c)).length,
          ((db.tasks.filter (taskMatches userId c)).length + P - 1) / P⟩⟩ ∧
    List.Perm (ownedSorted db userId c) (db.tasks.filter (taskMatches userId c)) ∧
    List.Sorted createdDesc (ownedSorted db userId c) ∧
    ((ownedSorted db userId c).map Task.id).Nodup ∧
    ((List.range (((db.tasks.filter (taskMatches userId c)).length + P - 1) / P)).map
        (fun i => listData (listTasksHandler db userId
          ⟨some ((i + 1 : Nat) : Int), some (P : Int), c⟩))).flatten =
      ownedSorted db userId c := by
  refine ⟨listTasks_page_eq db userId c p P hp hP, ?_, ?_, ?_, ?_⟩
  · exact List.perm_insertionSort createdDesc _
  · exact List.sorted_insertionSort createdDesc _
  · have hsub : List.Sublist (db.tasks.filter (taskMatches userId c)) db.tasks :=
      List.filter_sublist db.tasks
    have hfil : ((db.tasks.filter (taskMatches userId c)).map Task.id).Nodup :=
      hids.sublist (hsub.map Task.id)
    exact ((List.perm_insertionSort createdDesc _).map Task.id).nodup_iff.mpr hfil
  · have hlen : (ownedSorted db userId c).length =
        (db.tasks.filter (taskMatches userId c)).length :=
      (List.perm_insertionSort createdDesc _).length_eq
    have hmap : ∀ i ∈ List.range
        (((db.tasks.filter (taskMatches userId c)).length + P - 1) / P),
        listData (listTasksHandler db userId
            ⟨some ((i + 1 : Nat) : Int), some (P : Int), c⟩) =
          ((ownedSorted db userId c).drop (i * P)).take P := by
      intro i _
      rw [listTasks_page_eq db userId c (i + 1) P (by omega) hP]
      simp [listData]
    rw [List.map_congr_left hmap]
    exact flatten_chunks P (by omega) _ _ (by rw [hlen])

/-- Store for the C5 witness: three tasks of A with distinct creation
times. -/
def dbC5w : Db :=
  ⟨[], [⟨"t1", "A", "x", none, false, 3, 3⟩, ⟨"t2", "A", "y", none, false, 1, 1⟩,
    ⟨"t3", "A", "z", none, false, 2, 2⟩]⟩

/-- Witness for the amended C5: page 2 of size 2 over three tasks. -/
theorem C5_amended_pagination_correct_witness :
    listTasksHandler dbC5w "A" ⟨some 2, some 2, none⟩ =
      .ok ⟨((ownedSorted dbC5w "A" none).drop 2).take 2, ⟨2, 2, 3, 2⟩⟩ :=
  (C5_amended_pagination_correct dbC5w "A" none 2 2 (by decide) (by decide) (by decide)).1

/-- Store for the C5 counterexample: three tasks of A inserted in the order
"b", "a", "c", all with the same creation time. -/
def dbC5tie : Db :=
  ⟨[], [⟨"b", "A", "t", none, false, 5, 5⟩, ⟨"a", "A", "t", none, false, 5, 5⟩,
    ⟨"c", "A", "t", none, false, 5, 5⟩]⟩

/-- C5 counterexample: the query orders by `created_at` alone
(`orderBy(desc(tasks.createdAt))` with no secondary column), so rows tying
on `created_at` are NOT returned in id order: with the ids inserted in the
order "b", "a", "c" at one creation time, the page comes back exactly in
store order, which is neither ascending nor descending id order — refuting
the claimed stable tie-break by id. -/
theorem C5_counterexample_no_id_tiebreak :
    (dbC5tie.tasks.map Task.createdAt) = [5, 5, 5] ∧
    (listData (listTasksHandler dbC5tie "A" ⟨some 1, some 20, none⟩)).map Task.id =
      ["b", "a", "c"] ∧
    (["b", "a", "c"] : List String) ≠ ["a", "b", "c"] ∧
    (["b", "a", "c"] : List String) ≠ ["c", "b", "a"] :=
  ⟨rfl, by rfl, by decide, by decide⟩

end StarterApi
